import Mathlib

/-!
Shallow embedding of `src/main.rs` of the phdb repository: a single-file
page store prototype consisting of `DbHeader` (header encode/decode) and
`Pager` (page-addressed file access and bootstrap).

Modelling conventions:
- a byte is a `Nat` (values < 256), a buffer is a `List Nat`, and the
  database file is the `List Nat` of its bytes;
- `u32`/`u16` arithmetic is `Nat` arithmetic, with an explicit `% 2 ^ 32`
  exactly where the u32 computation in the source can wrap;
- `read_at`/`write_at` are modelled on the byte list: a read past the end of
  the file is short (returns fewer bytes), a write past the end zero-fills
  the gap and extends the file;
- `io::Result` I/O failures of the underlying file have no counterpart in
  the pure model; every operation is modelled on its success path, and a
  Rust panic (slice indexing out of bounds) is modelled as `Option.none`.
-/

/-- Little-endian byte list of a u32 value, as produced by `u32::to_le_bytes`. -/
def u32ToLe (v : Nat) : List Nat :=
  [v % 256, v / 256 % 256, v / 65536 % 256, v / 16777216 % 256]

/-- Little-endian byte list of a u16 value, as produced by `u16::to_le_bytes`. -/
def u16ToLe (v : Nat) : List Nat :=
  [v % 256, v / 256 % 256]

/-- Little-endian value of a byte list, as computed by `from_le_bytes`. -/
def leToNat : List Nat → Nat
  | [] => 0
  | b :: rest => b + 256 * leToNat rest

/-- `const MAGIC_NUMBER: u32 = 0x50484442`. -/
def MAGIC_NUMBER : Nat := 0x50484442

/-- `const DEFAULT_PAGE_SIZE: u16 = 1024`. -/
def DEFAULT_PAGE_SIZE : Nat := 1024

/-- `mem::size_of::<DbHeader>()`: the struct holds a u32, a u16 and a u32,
so with 4-byte alignment its size is 12 bytes. -/
def headerSize : Nat := 12

/-- The `DbHeader` struct: `magic: u32`, `page_size: u16`, `page_count: u32`. -/
structure DbHeader where
  magic : Nat
  page_size : Nat
  page_count : Nat
deriving DecidableEq, Repr

/-- `copy_from_slice`: overwrite `buf[off .. off + src.length]` with `src`
(in the source, `src.length` always fits inside `buf`). -/
def setSlice (buf : List Nat) (off : Nat) (src : List Nat) : List Nat :=
  buf.take off ++ src ++ buf.drop (off + src.length)

/-- `DbHeader::to_buf`: serialize into a zeroed `size_of::<DbHeader>()`-byte
buffer, little-endian: `magic` at offset 0 (4 bytes), `page_size` at offset 4
(2 bytes), `page_count` at offset 6 (4 bytes); bytes 10..12 stay zero. -/
def DbHeader.to_buf (h : DbHeader) : List Nat :=
  setSlice (setSlice (setSlice (List.replicate headerSize 0) 0 (u32ToLe h.magic))
    4 (u16ToLe h.page_size)) 6 (u32ToLe h.page_count)

/-- The field extraction performed by `DbHeader::from` once the three slice
indexings `buf[0..4]`, `buf[4..6]`, `buf[6..10]` are in bounds. -/
def DbHeader.fromBytes (buf : List Nat) : DbHeader :=
  { magic := leToNat (buf.take 4)
    page_size := leToNat ((buf.drop 4).take 2)
    page_count := leToNat ((buf.drop 6).take 4) }

/-- `DbHeader::from` (named `fromBuf` here because `from` is reserved in
Lean): the slice expressions `buf[0..4]`, `buf[4..6]`, `buf[6..10]` panic
when `buf` is shorter than 10 bytes; the panic is modelled as `none`.
On any buffer of length at least 10 it succeeds, trusting fields as-is. -/
def DbHeader.fromBuf (buf : List Nat) : Option DbHeader :=
  if 10 ≤ buf.length then some (DbHeader.fromBytes buf) else none

/-- `DbHeader::alloc`. -/
def DbHeader.alloc (page_size : Nat) : DbHeader :=
  { magic := MAGIC_NUMBER, page_size := page_size, page_count := 0 }

/-- `FileExt::read_at`: the bytes actually obtained when reading `n` bytes at
byte offset `off` (short when the file ends before `off + n`). -/
def readAt (f : List Nat) (off n : Nat) : List Nat :=
  (f.drop off).take n

/-- `FileExt::write_at` on a regular file: overwrite `buf` at byte offset
`off`, zero-filling any gap past the current end of file and extending the
file as needed. -/
def writeAt (f : List Nat) (off : Nat) (buf : List Nat) : List Nat :=
  f.take off ++ List.replicate (off - f.length) 0 ++ buf ++ f.drop (off + buf.length)

/-- The byte offset used by both `Pager::read` and `Pager::write`:
`page_no * self.page_size as u32`, a u32 multiplication that wraps modulo
2 ^ 32 (release-build semantics) before being widened to u64 by `.into()`. -/
def Pager.offset (page_size page_no : Nat) : Nat :=
  (page_no * page_size) % 2 ^ 32

/-- `Pager::read`: fill the caller's buffer `buf` from the file at the page
offset; returns the buffer contents after the call together with the byte
count `read_at` reports. Bytes past the count keep their previous values. -/
def Pager.read (page_size : Nat) (f : List Nat) (page_no : Nat) (buf : List Nat) :
    List Nat × Nat :=
  let r := readAt f (Pager.offset page_size page_no) buf.length
  (r ++ buf.drop r.length, r.length)

/-- `Pager::write`: write `buf` at the page offset; returns the new file
contents together with the byte count `write_at` reports. -/
def Pager.write (page_size : Nat) (f : List Nat) (page_no : Nat) (buf : List Nat) :
    List Nat × Nat :=
  (writeAt f (Pager.offset page_size page_no) buf, buf.length)

/-- Outcome of `Pager::init`: the pager's `page_size` field afterwards, the
file contents afterwards, and whether the header write was performed. -/
structure InitResult where
  page_size : Nat
  file : List Nat
  wrote : Bool
deriving DecidableEq, Repr

/-- `Pager::init`: read `size_of::<DbHeader>()` bytes at page 0 (offset 0)
into a zeroed stack buffer, decode it (`DbHeader::from` cannot panic on the
12-byte buffer), and if the stored magic matches `MAGIC_NUMBER` adopt the
stored page size; otherwise write a fresh `DbHeader::alloc(self.page_size)`
header at page 0. -/
def Pager.init (page_size : Nat) (f : List Nat) : InitResult :=
  let hdr := DbHeader.fromBytes (Pager.read page_size f 0 (List.replicate headerSize 0)).1
  if hdr.magic = MAGIC_NUMBER then
    ⟨hdr.page_size, f, false⟩
  else
    ⟨page_size, (Pager.write page_size f 0 (DbHeader.alloc page_size).to_buf).1, true⟩

/-- The spec's `offsetOf` operation, written from the spec's own words for
refinement comparison with `Pager.offset`: fails (`none`) on page number 0,
otherwise `HEADER_SIZE + pageSize * (pageNumber - 1)`. -/
def specOffsetOf (page_no page_size : Nat) : Option Nat :=
  if page_no = 0 then none else some (headerSize + page_size * (page_no - 1))

/-! ## Helper lemmas -/

theorem leToNat_u32ToLe (v : Nat) (h : v < 2 ^ 32) : leToNat (u32ToLe v) = v := by
  simp [leToNat, u32ToLe]
  omega

theorem leToNat_u16ToLe (v : Nat) (h : v < 2 ^ 16) : leToNat (u16ToLe v) = v := by
  simp [leToNat, u16ToLe]
  omega

theorem to_buf_append_form (h : DbHeader) :
    h.to_buf = u32ToLe h.magic ++ u16ToLe h.page_size ++ u32ToLe h.page_count ++ [0, 0] := rfl

theorem to_buf_length (h : DbHeader) : h.to_buf.length = 12 := rfl

theorem fromBytes_to_buf (h : DbHeader) (hm : h.magic < 2 ^ 32) (hp : h.page_size < 2 ^ 16)
    (hc : h.page_count < 2 ^ 32) : DbHeader.fromBytes h.to_buf = h := by
  obtain ⟨m, p, c⟩ := h
  have h1 : (DbHeader.to_buf ⟨m, p, c⟩).take 4 = u32ToLe m := rfl
  have h2 : ((DbHeader.to_buf ⟨m, p, c⟩).drop 4).take 2 = u16ToLe p := rfl
  have h3 : ((DbHeader.to_buf ⟨m, p, c⟩).drop 6).take 4 = u32ToLe c := rfl
  simp only [DbHeader.fromBytes, h1, h2, h3]
  rw [leToNat_u32ToLe m hm, leToNat_u16ToLe p hp, leToNat_u32ToLe c hc]

theorem readAt_writeAt (f : List Nat) (off : Nat) (b : List Nat) :
    readAt (writeAt f off b) off b.length = b := by
  have key : ∀ q : List Nat, q.length = off →
      readAt (q ++ (b ++ f.drop (off + b.length))) off b.length = b := by
    intro q hq
    unfold readAt
    rw [← hq, List.drop_left, List.take_left]
  have hw : writeAt f off b =
      (f.take off ++ List.replicate (off - f.length) 0) ++ (b ++ f.drop (off + b.length)) := by
    simp [writeAt, List.append_assoc]
  rw [hw]
  apply key
  simp [List.length_take, List.length_replicate]
  omega

theorem init_read_header (page_size : Nat) (f : List Nat) :
    (Pager.read page_size f 0 (List.replicate headerSize 0)).1 =
      f.take 12 ++ List.replicate (12 - (f.take 12).length) 0 := by
  simp only [Pager.read, readAt, headerSize, Pager.offset, Nat.zero_mul, Nat.zero_mod,
    List.drop_zero, List.length_replicate, List.drop_replicate]

theorem write_header_zero (page_size : Nat) (f : List Nat) (h : DbHeader) :
    (Pager.write page_size f 0 h.to_buf).1 = h.to_buf ++ f.drop 12 := by
  simp [Pager.write, writeAt, Pager.offset, to_buf_length]

theorem init_eq (page_size : Nat) (f : List Nat) :
    Pager.init page_size f =
      if (DbHeader.fromBytes
            (f.take 12 ++ List.replicate (12 - (f.take 12).length) 0)).magic = MAGIC_NUMBER then
        ⟨(DbHeader.fromBytes
            (f.take 12 ++ List.replicate (12 - (f.take 12).length) 0)).page_size, f, false⟩
      else ⟨page_size, (DbHeader.alloc page_size).to_buf ++ f.drop 12, true⟩ := by
  simp only [Pager.init, init_read_header, write_header_zero]

/-! ## Claim theorems -/

/-- Claim C1 (evidence for the code bug): on a 12-byte file whose stored
magic `0xFFFFFFFF` does not equal `MAGIC_NUMBER`, `Pager::init` does not
fail: it overwrites the start of the file with a fresh header, changing the
file's contents — the claim instead requires open to fail with
`CorruptHeader` and leave the file untouched. -/
theorem c1_open_overwrites_mismatched_header :
    (Pager.init 1024 (List.replicate 12 255)).wrote = true ∧
      (Pager.init 1024 (List.replicate 12 255)).file ≠ List.replicate 12 255 := by
  decide

/-- Claim C2 (counterexample): at page number 1 and page size 1024 the
spec's `offsetOf` yields `HEADER_SIZE + 1024 * 0 = 12`, but the code's
offset is `1024`; and at page number 0 the code produces offset `0` (the
header's own offset) instead of failing with `InvalidPageNumber`. -/
theorem c2_offset_counterexample :
    specOffsetOf 1 1024 = some 12 ∧ Pager.offset 1024 1 = 1024 ∧ (1024 : Nat) ≠ 12 ∧
      Pager.offset 1024 0 = 0 := by
  decide

/-- Claim C2 (amended): when `pageNumber * pageSize` does not overflow u32,
the byte offset of a page equals `pageSize * pageNumber` — with no
`HEADER_SIZE` term and no 1-based shift — and page number 0 maps to offset
0, the header's own location, rather than failing. -/
theorem c2_offset_formula (page_size page_no : Nat) (h : page_no * page_size < 2 ^ 32) :
    Pager.offset page_size page_no = page_size * page_no ∧ Pager.offset page_size 0 = 0 := by
  constructor
  · unfold Pager.offset
    rw [Nat.mod_eq_of_lt h, Nat.mul_comm]
  · simp [Pager.offset]

/-- Claim C2 (witness for the amended theorem at page number 2, page size
1024). -/
theorem c2_offset_formula_witness :
    2 * 1024 < 2 ^ 32 ∧
      (Pager.offset 1024 2 = 1024 * 2 ∧ Pager.offset 1024 0 = 0) :=
  ⟨by decide, c2_offset_formula 1024 2 (by decide)⟩

/-- Claim C3 (counterexample): for the header with magic `MAGIC_NUMBER`,
page size 1 and page count 5, bytes 4..8 of the encoding are not the 4-byte
little-endian encoding of the page size, and bytes 8..12 are not the 4-byte
little-endian encoding of the page count: the claimed byte ranges are
wrong for this code. -/
theorem c3_layout_counterexample :
    ((DbHeader.mk 0x50484442 1 5).to_buf.drop 4).take 4 ≠ u32ToLe 1 ∧
      ((DbHeader.mk 0x50484442 1 5).to_buf.drop 8).take 4 ≠ u32ToLe 5 := by
  decide

/-- Claim C3 (amended): the encoded header is little-endian with field order
`magic, page_size, page_count`: magic occupies bytes 0..4, page size is a
2-byte field at bytes 4..6, page count occupies bytes 6..10, and bytes
10..12 are zero padding; the buffer is `headerSize = 12` bytes and there
are no free-list fields. -/
theorem c3_layout (h : DbHeader) :
    h.to_buf = u32ToLe h.magic ++ u16ToLe h.page_size ++ u32ToLe h.page_count ++ [0, 0] ∧
      h.to_buf.length = headerSize :=
  ⟨rfl, rfl⟩

/-- Claim C4 (confirmed): for every page number `p ≥ 1` and every buffer `b`
of length exactly `page_size`, writing `b` to page `p` and then reading page
`p` into a zeroed buffer of `page_size` bytes returns exactly `b`, with a
full-length byte count. -/
theorem c4_write_then_read (page_size : Nat) (f : List Nat) (p : Nat) (b : List Nat)
    (hp : 1 ≤ p) (hb : b.length = page_size) :
    (Pager.read page_size (Pager.write page_size f p b).1 p (List.replicate page_size 0)).1 = b ∧
      (Pager.read page_size (Pager.write page_size f p b).1 p
        (List.replicate page_size 0)).2 = page_size := by
  have h1 := readAt_writeAt f (Pager.offset page_size p) b
  rw [hb] at h1
  simp [Pager.read, Pager.write, h1, hb, List.drop_replicate]

/-- Claim C4 (witness at page size 4, page 1, buffer `[9, 8, 7, 6]`). -/
theorem c4_write_then_read_witness :
    1 ≤ 1 ∧ ([9, 8, 7, 6] : List Nat).length = 4 ∧
      ((Pager.read 4 (Pager.write 4 [] 1 [9, 8, 7, 6]).1 1 (List.replicate 4 0)).1 = [9, 8, 7, 6] ∧
        (Pager.read 4 (Pager.write 4 [] 1 [9, 8, 7, 6]).1 1 (List.replicate 4 0)).2 = 4) :=
  ⟨by decide, by decide, c4_write_then_read 4 [] 1 [9, 8, 7, 6] (by decide) (by decide)⟩

/-- Claim C5 (counterexample): the 4-byte file holding exactly the
little-endian magic bytes is shorter than `headerSize`, yet `init` does not
persist a fresh header at all: the zero-padded short read makes the magic
check pass, so the pager adopts page size 0 from the padding bytes, writes
nothing, and leaves the file as it was. -/
theorem c5_bootstrap_counterexample :
    ([0x42, 0x44, 0x48, 0x50] : List Nat).length < headerSize ∧
      Pager.init 1024 [0x42, 0x44, 0x48, 0x50] = ⟨0, [0x42, 0x44, 0x48, 0x50], false⟩ := by
  decide

/-- Claim C5 (amended): for every file shorter than `headerSize` whose
zero-padded 12-byte prefix does not decode to the magic number, `init`
persists a fresh header — magic set, page size equal to the caller-supplied
value, page count 0 — and that header (the code has no free-list fields)
becomes the entire file and decodes back to `DbHeader.alloc page_size`. -/
theorem c5_bootstrap (page_size : Nat) (f : List Nat) (hlen : f.length < headerSize)
    (hps : page_size < 2 ^ 16)
    (hmagic : (DbHeader.fromBytes (f ++ List.replicate (12 - f.length) 0)).magic ≠ MAGIC_NUMBER) :
    Pager.init page_size f = ⟨page_size, (DbHeader.alloc page_size).to_buf, true⟩ ∧
      DbHeader.fromBytes (DbHeader.alloc page_size).to_buf = DbHeader.alloc page_size := by
  have hlen' : f.length ≤ 12 := by
    simp [headerSize] at hlen
    omega
  have htake : f.take 12 = f := List.take_of_length_le hlen'
  have hdrop : f.drop 12 = [] := List.drop_eq_nil_of_le hlen'
  constructor
  · rw [init_eq, htake, if_neg hmagic, hdrop, List.append_nil]
  · have hm' : (DbHeader.alloc page_size).magic < 2 ^ 32 := by
      norm_num [DbHeader.alloc, MAGIC_NUMBER]
    have hc' : (DbHeader.alloc page_size).page_count < 2 ^ 32 := by
      norm_num [DbHeader.alloc]
    exact fromBytes_to_buf (DbHeader.alloc page_size) hm' hps hc'

/-- Claim C5 (witness for the amended theorem: the empty file, default page
size 1024). -/
theorem c5_bootstrap_witness :
    ([] : List Nat).length < headerSize ∧ 1024 < 2 ^ 16 ∧
      (DbHeader.fromBytes (([] : List Nat) ++
        List.replicate (12 - ([] : List Nat).length) 0)).magic ≠ MAGIC_NUMBER ∧
      (Pager.init 1024 [] = ⟨1024, (DbHeader.alloc 1024).to_buf, true⟩ ∧
        DbHeader.fromBytes (DbHeader.alloc 1024).to_buf = DbHeader.alloc 1024) :=
  ⟨by decide, by decide, by decide, c5_bootstrap 1024 [] (by decide) (by decide) (by decide)⟩

/-- Claim C6 (counterexample): on a file consisting of a valid 12-byte
header, reading page 0 does not fail with `InvalidPageNumber`: it succeeds
and returns the header's own 12 bytes; and writing a 1-byte buffer to page
1 does not fail with `SizeMismatch`: it writes that one byte and changes
the on-disk state. -/
theorem c6_validation_counterexample :
    (Pager.read 1024 (DbHeader.alloc 1024).to_buf 0 (List.replicate 12 0)).2 = 12 ∧
      (Pager.read 1024 (DbHeader.alloc 1024).to_buf 0 (List.replicate 12 0)).1 =
        (DbHeader.alloc 1024).to_buf ∧
      (Pager.write 1024 (DbHeader.alloc 1024).to_buf 1 [7]).2 = 1 ∧
      (Pager.write 1024 (DbHeader.alloc 1024).to_buf 1 [7]).1 ≠
        (DbHeader.alloc 1024).to_buf := by
  decide

/-- Claim C6 (amended): `Pager::read` and `Pager::write` perform no
validation at all — there is no `InvalidPageNumber`, `SizeMismatch` or
`ShortRead` failure. A write reports exactly the length of the buffer it
was given, whatever that length is, and a read of page 0 addresses byte
offset 0 (the header region), reporting `min (buffer length) (file length)`
bytes; a short read is visible only through that count. -/
theorem c6_no_validation (page_size : Nat) (f : List Nat) (page_no : Nat) (buf : List Nat) :
    (Pager.write page_size f page_no buf).2 = buf.length ∧
      (Pager.read page_size f 0 buf).2 = min buf.length f.length := by
  constructor
  · rfl
  · simp [Pager.read, readAt, Pager.offset]

/-- Claim C7 (counterexample): the all-zero buffer of 10 bytes is shorter
than `headerSize = 12`, yet decoding it succeeds (yielding the all-zero
header) instead of failing. -/
theorem c7_decode_counterexample :
    (List.replicate 10 0).length < headerSize ∧
      DbHeader.fromBuf (List.replicate 10 0) = some (DbHeader.mk 0 0 0) := by
  decide

/-- Claim C7 (amended): decoding fails exactly when the buffer is shorter
than 10 bytes — the packed extent of the three fields, not
`headerSize = 12` — and the failure is a slice-indexing panic, not a
`CorruptHeader` error value; on every buffer of length at least 10 it
succeeds, trusting all field values as-is. -/
theorem c7_decode_threshold (buf : List Nat) :
    DbHeader.fromBuf buf = none ↔ buf.length < 10 := by
  unfold DbHeader.fromBuf
  split <;> rename_i h <;> simp <;> omega

/-- Claim C8 (counterexample): at page size 1024, page number 4194304 has
true byte offset `4194304 * 1024 = 2 ^ 32`, which is representable in the
platform file-offset type (u64) but overflows the u32 product; the code's
offset silently wraps to 0 — aliasing the header — instead of failing with
`AddressOverflow`. -/
theorem c8_overflow_counterexample :
    Pager.offset 1024 4194304 = 0 ∧ 4194304 * 1024 = 2 ^ 32 := by
  decide

/-- Claim C8 (amended): the offset computation is u32 modular arithmetic —
the offset always equals `pageNumber * pageSize` reduced modulo 2 ^ 32 and
is therefore always below 2 ^ 32; an overflowing product silently wraps
(release-build semantics; a debug build would panic), and no
`AddressOverflow` failure exists. -/
theorem c8_offset_wraps (page_size page_no : Nat) :
    Pager.offset page_size page_no = page_no * page_size % 2 ^ 32 ∧
      Pager.offset page_size page_no < 2 ^ 32 :=
  ⟨rfl, Nat.mod_lt _ (by norm_num)⟩

/-- Claim C9 (confirmed): encode followed by decode is the identity on every
header whose fields are in u32/u16/u32 range (as they always are in the
source, where the fields have those machine types). -/
theorem c9_codec_round_trip (h : DbHeader) (hm : h.magic < 2 ^ 32)
    (hp : h.page_size < 2 ^ 16) (hc : h.page_count < 2 ^ 32) :
    DbHeader.fromBuf h.to_buf = some h := by
  unfold DbHeader.fromBuf
  rw [to_buf_length, if_pos (by norm_num), fromBytes_to_buf h hm hp hc]

/-- Claim C9 (witness at the header with magic `MAGIC_NUMBER`, page size
1024, page count 3). -/
theorem c9_codec_round_trip_witness :
    (DbHeader.mk 0x50484442 1024 3).magic < 2 ^ 32 ∧
      (DbHeader.mk 0x50484442 1024 3).page_size < 2 ^ 16 ∧
      (DbHeader.mk 0x50484442 1024 3).page_count < 2 ^ 32 ∧
      DbHeader.fromBuf (DbHeader.mk 0x50484442 1024 3).to_buf =
        some (DbHeader.mk 0x50484442 1024 3) :=
  ⟨by decide, by decide, by decide,
    c9_codec_round_trip (DbHeader.mk 0x50484442 1024 3) (by decide) (by decide) (by decide)⟩

/-- Claim C10 (confirmed): `Pager::init` is idempotent for every u16 page
size and every starting file: running it a second time on the store it
produced leaves the pager's page size and the file contents exactly as the
first run left them, and the second run performs no file write (its
`wrote` flag is `false`), because the persisted magic then matches and the
persisted page size is adopted. -/
theorem c10_init_idempotent (page_size : Nat) (f : List Nat) (hps : page_size < 2 ^ 16) :
    Pager.init (Pager.init page_size f).page_size (Pager.init page_size f).file =
      ⟨(Pager.init page_size f).page_size, (Pager.init page_size f).file, false⟩ := by
  by_cases hm : (DbHeader.fromBytes
      (f.take 12 ++ List.replicate (12 - (f.take 12).length) 0)).magic = MAGIC_NUMBER
  · rw [init_eq page_size f, if_pos hm]
    simp only []
    rw [init_eq, if_pos hm]
  · rw [init_eq page_size f, if_neg hm]
    simp only []
    rw [init_eq]
    have ht : ((DbHeader.alloc page_size).to_buf ++ f.drop 12).take 12 =
        (DbHeader.alloc page_size).to_buf := List.take_left' (to_buf_length _)
    have hm' : (DbHeader.alloc page_size).magic < 2 ^ 32 := by
      norm_num [DbHeader.alloc, MAGIC_NUMBER]
    have hc' : (DbHeader.alloc page_size).page_count < 2 ^ 32 := by
      norm_num [DbHeader.alloc]
    rw [ht, to_buf_length]
    norm_num
    rw [fromBytes_to_buf (DbHeader.alloc page_size) hm' hps hc',
      if_pos (show (DbHeader.alloc page_size).magic = MAGIC_NUMBER from rfl)]
    rfl

/-- Claim C10 (witness at the empty file, default page size 1024). -/
theorem c10_init_idempotent_witness :
    1024 < 2 ^ 16 ∧
      Pager.init (Pager.init 1024 []).page_size (Pager.init 1024 []).file =
        ⟨(Pager.init 1024 []).page_size, (Pager.init 1024 []).file, false⟩ :=
  ⟨by decide, c10_init_idempotent 1024 [] (by decide)⟩
